import Mathlib

/-!
Shallow embedding of the core of `urlchecker.py` (class `URLChecker`):
the per-URL probe `check_url`, the batched dispatch `process_batch` /
`process_urls`, and the aggregation loop that folds probe results into
the shared result state.

Network effects are modelled by a `NetBehavior` value per URL giving, for
each HTTP call the probe may issue (the HEAD, and up to two GETs in issue
order), either a clean response or a raised exception.  Exceptions are
modelled by the `PyExn` type whose constructors each stand for a subclass
of Python's `Exception` that a network call or the body of `check_url`
can raise; `BaseException`-level interruptions (process interruption,
task cancellation) are outside the model, as the specification treats
them as external to the core.
-/

set_option autoImplicit false

set_option maxRecDepth 40000

namespace UrlChecker

/-- Exceptions that can be raised inside the body of `check_url`.  Each
constructor models a subclass of Python's `Exception`:
`timeoutError` is `asyncio.TimeoutError` (raised when the total timeout
elapses), `connectorError` is `aiohttp.ClientConnectorError` (DNS or
connection-establishment failure, a subclass of `ClientError`),
`responseError` is `aiohttp.ClientResponseError`, `clientError` is any
other `aiohttp.ClientError`, `valueError` is `ValueError` (raised by
`int()` on an unparseable string), `otherError` is any other
`Exception`.  The `msg` field is the Python `str()` of the exception. -/
inductive PyExn where
  | timeoutError
  | connectorError (msg : String)
  | responseError (msg : String)
  | clientError (msg : String)
  | valueError (msg : String)
  | otherError (msg : String)
  deriving DecidableEq

/-- Which exceptions the handler `except (aiohttp.ClientResponseError,
aiohttp.ClientError)` catches: `ClientConnectorError` and
`ClientResponseError` are both subclasses of `ClientError`. -/
def isClientErr : PyExn → Bool
  | .connectorError _ => true
  | .responseError _ => true
  | .clientError _ => true
  | _ => false

/-- Which exceptions the handler `except asyncio.TimeoutError` catches. -/
def catchesTimeout : PyExn → Bool
  | .timeoutError => true
  | _ => false

/-- Which exceptions the handler `except aiohttp.ClientConnectorError`
catches. -/
def catchesConnector : PyExn → Bool
  | .connectorError _ => true
  | _ => false

/-- Which exceptions the handler `except Exception` catches: every
constructor of `PyExn` models a subclass of `Exception`. -/
def catchesException : PyExn → Bool
  | .timeoutError => true
  | .connectorError _ => true
  | .responseError _ => true
  | .clientError _ => true
  | .valueError _ => true
  | .otherError _ => true

/-- Python `str()` of the exception (`str(asyncio.TimeoutError())` is the
empty string; the probe never uses it on the timeout path). -/
def exnStr : PyExn → String
  | .timeoutError => ""
  | .connectorError m => m
  | .responseError m => m
  | .clientError m => m
  | .valueError m => m
  | .otherError m => m

/-- One clean HTTP response as `check_url` observes it: the integer
status and `response.headers.get('Content-Length')` (`none` when the
header is absent). -/
structure HttpResponse where
  status : Nat
  contentLength : Option String
  deriving DecidableEq

/-- Result of one network call: a clean response, or a raised exception. -/
inductive CallResult where
  | resp (r : HttpResponse)
  | exn (e : PyExn)
  deriving DecidableEq

/-- The network behaviour visible to one probe: the result of the HEAD
request, and of the first and second GET request the probe may issue (in
issue order; the probe issues at most two GETs: the 405/501 fallback GET
inside the `try` body, and the GET inside the `except` handler). -/
structure NetBehavior where
  head : CallResult
  get1 : CallResult
  get2 : CallResult
  deriving DecidableEq

/-- Digit value of a decimal digit character. -/
def digitVal (c : Char) : Nat := c.toNat - 48

/-- Parse the remaining characters of a decimal literal after its first
digit: digits, with single underscores allowed between digits (Python
`int()` grammar). -/
def parseDigitsAux : List Char → Nat → Option Nat
  | [], acc => some acc
  | '_' :: d :: cs, acc =>
      if d.isDigit then parseDigitsAux cs (acc * 10 + digitVal d) else none
  | '_' :: [], _ => none
  | c :: cs, acc =>
      if c.isDigit then parseDigitsAux cs (acc * 10 + digitVal c) else none

/-- Parse a nonempty run of decimal digits (with single underscores
between digits). -/
def parseDigits : List Char → Option Nat
  | [] => none
  | c :: cs => if c.isDigit then parseDigitsAux cs (digitVal c) else none

/-- Whitespace characters Python `int()` strips from both ends. -/
def pyWhitespace (c : Char) : Bool :=
  c = ' ' || c = '\t' || c = '\n' || c = '\r' || c = '\x0b' || c = '\x0c'

/-- Strip leading and trailing whitespace from a character list. -/
def stripChars (cs : List Char) : List Char :=
  ((cs.dropWhile pyWhitespace).reverse.dropWhile pyWhitespace).reverse

/-- Model of Python `int(s)` on a string: strip surrounding whitespace,
allow one optional sign, then a nonempty decimal literal; `none` when
`int()` would raise `ValueError`. -/
def pyInt (s : String) : Option Int :=
  match stripChars s.data with
  | '+' :: rest => (parseDigits rest).map Int.ofNat
  | '-' :: rest => (parseDigits rest).map (fun n => -(n : Int))
  | rest => (parseDigits rest).map Int.ofNat

/-- Message of the `ValueError` raised by `int()` on an unparseable
string (model of CPython's message text). -/
def intErrMsg (s : String) : String :=
  "invalid literal for int() with base 10: " ++ s

/-- Model of `size = int(content_length) if content_length else None`:
a missing or empty (falsy) header yields `none`; a nonempty header is
parsed by `int()`, which raises `ValueError` when unparseable. -/
def sizeOfHeader (cl : Option String) : Except PyExn (Option Int) :=
  match cl with
  | none => .ok none
  | some s =>
      if s.isEmpty then .ok none
      else
        match pyInt s with
        | some n => .ok (some n)
        | none => .error (.valueError (intErrMsg s))

/-- Read status and size out of one GET call: propagate the exception if
the call raised, otherwise take the response status and parse its
Content-Length (which may itself raise `ValueError`). -/
def getPhase (r : CallResult) : Except PyExn (Nat × Option Int) :=
  match r with
  | .exn e => .error e
  | .resp g => (sizeOfHeader g.contentLength).map (fun sz => (g.status, sz))

/-- The body of the inner `try` of `check_url`: issue the HEAD; on a
405/501 status issue the fallback GET and use its status/Content-Length,
otherwise use the HEAD's.  Returns the result together with the number
of GET calls issued, so the `except` handler knows which GET result it
consumes next. -/
def tryBody (b : NetBehavior) : Except PyExn (Nat × Option Int) × Nat :=
  match b.head with
  | .exn e => (.error e, 0)
  | .resp r =>
      if r.status = 405 ∨ r.status = 501 then (getPhase b.get1, 1)
      else ((sizeOfHeader r.contentLength).map (fun sz => (r.status, sz)), 0)

/-- The inner `try`/`except` of `check_url`: run the body; if it raised a
`ClientError` (including `ClientConnectorError` and
`ClientResponseError`), run the handler's GET request; any exception
from the handler, or a non-client exception from the body, propagates to
the outer handlers. -/
def settle (b : NetBehavior) : Except PyExn (Nat × Option Int) :=
  match tryBody b with
  | (.ok v, _) => .ok v
  | (.error e, n) =>
      if isClientErr e then getPhase (if n = 0 then b.get1 else b.get2)
      else .error e

/-- The result dictionary `check_url` returns:
`{'url': ..., 'status': ..., 'size': ..., 'error': ...}`. -/
structure ProbeResult where
  url : String
  status : Option Nat
  size : Option Int
  error : Option String
  deriving DecidableEq

/-- The success-path dictionary: `error` is `None`, `size` is
`size or 0`. -/
def successResult (url : String) (st : Nat) (sz : Int) : ProbeResult :=
  ⟨url, some st, some sz, none⟩

/-- A failure dictionary: `status` and `size` are `None`, `error` is the
detail string. -/
def failureResult (url : String) (detail : String) : ProbeResult :=
  ⟨url, none, none, some detail⟩

/-- Model of `URLChecker.check_url`: run the guarded HEAD/GET protocol;
on success return the status and `size or 0` (Python `None or 0` and
`0 or 0` both evaluate to `0`, so this is `Option.getD 0`); otherwise the
outer handlers classify the exception in source order:
`asyncio.TimeoutError`, then `aiohttp.ClientConnectorError`, then the
catch-all `Exception`. -/
def checkUrl (url : String) (b : NetBehavior) : ProbeResult :=
  match settle b with
  | .ok (st, sz) => successResult url st (sz.getD 0)
  | .error .timeoutError => failureResult url "Timeout"
  | .error (.connectorError m) =>
      failureResult url ("DNS/Connection: " ++ m.take 100)
  | .error e => failureResult url ("Error: " ++ (exnStr e).take 100)

/-- Exception-propagating semantics of `check_url`: the same computation,
but an exception not caught by any of the three outer handlers escapes
as `.error`.  Used to state that no exception propagates past the
boundary of `check_url`. -/
def checkUrlE (url : String) (b : NetBehavior) : Except PyExn ProbeResult :=
  match settle b with
  | .ok (st, sz) => .ok (successResult url st (sz.getD 0))
  | .error e =>
      if catchesTimeout e then .ok (failureResult url "Timeout")
      else if catchesConnector e then
        .ok (failureResult url ("DNS/Connection: " ++ (exnStr e).take 100))
      else if catchesException e then
        .ok (failureResult url ("Error: " ++ (exnStr e).take 100))
      else .error e

/-- Default accepted status codes:
`{200} | set(range(300, 400)) | {403}`. -/
def defaultAccepted (c : Nat) : Bool :=
  c = 200 || (300 ≤ c && c < 400) || c = 403

/-- Model of parsing `args.include`: split on commas and parse each
piece with `int(code.strip())`, silently dropping pieces that fail to
parse (`pyInt` already strips surrounding whitespace, so the extra
`.strip()` of the source is absorbed).  A `None` or empty (falsy)
include string contributes nothing. -/
def parseIncludes (inc : Option String) : List Int :=
  match inc with
  | none => []
  | some s =>
      if s.isEmpty then []
      else (s.splitOn ",").filterMap pyInt

/-- Membership test `result['status'] in included_codes` for an integer
status. -/
def isIncluded (inc : Option String) (st : Nat) : Bool :=
  defaultAccepted st || (parseIncludes inc).contains (st : Int)

/-- Truthiness of `result['error']` (a `None` or empty string is falsy). -/
def isErrorResult (r : ProbeResult) : Bool :=
  match r.error with
  | none => false
  | some s => !s.isEmpty

/-- Whether the `elif result['status'] in included_codes` branch fires:
a `None` status is never a member of the integer set. -/
def validStatus (inc : Option String) (r : ProbeResult) : Bool :=
  match r.status with
  | some st => isIncluded inc st
  | none => false

/-- Inner map of the result buckets: `defaultdict(list)` from size to
the URLs appended under that size, in key-insertion order. -/
abbrev SizeMap := List (Int × List String)

/-- Outer map of the result buckets: `defaultdict(lambda:
defaultdict(list))` from status to its size map, in key-insertion
order. -/
abbrev Results := List (Nat × SizeMap)

/-- Append a URL under a size key, creating the key at the end on first
insertion (Python dict key-insertion order). -/
def sizeAdd (m : SizeMap) (sz : Int) (url : String) : SizeMap :=
  match m with
  | [] => [(sz, [url])]
  | (k, us) :: rest =>
      if k = sz then (k, us ++ [url]) :: rest
      else (k, us) :: sizeAdd rest sz url

/-- Append a URL under `results[status][size]`, creating missing keys at
the end on first insertion. -/
def bucketAdd (r : Results) (st : Nat) (sz : Int) (url : String) : Results :=
  match r with
  | [] => [(st, [(sz, [url])])]
  | (k, m) :: rest =>
      if k = st then (k, sizeAdd m sz url) :: rest
      else (k, m) :: bucketAdd rest st sz url

/-- The mutable state the aggregation loop updates: `self.results`,
`self.errors`, and the counters of `self.stats` (the wall-clock
timestamps are out of the functional model). -/
structure RState where
  results : Results
  errors : List ProbeResult
  total : Nat
  valid : Nat
  errs : Nat
  deriving DecidableEq

/-- The empty state a run starts from. -/
def initRState : RState := ⟨[], [], 0, 0, 0⟩

/-- One iteration of the aggregation loop of `process_urls` (lines
139-149): `total` is always incremented; a truthy `error` increments
`errors` and appends the result to the error list; otherwise an included
status increments `valid` and appends the URL under
`results[status][size]`; otherwise only `total` changes. -/
def foldOutcome (inc : Option String) (s : RState) (r : ProbeResult) : RState :=
  if isErrorResult r then
    { s with total := s.total + 1, errs := s.errs + 1, errors := s.errors ++ [r] }
  else if validStatus inc r then
    { s with total := s.total + 1, valid := s.valid + 1,
             results := bucketAdd s.results (r.status.getD 0) (r.size.getD 0) r.url }
  else
    { s with total := s.total + 1 }

/-- Probe one URL under a network-behaviour assignment. -/
def checkUrlF (net : String → NetBehavior) (u : String) : ProbeResult :=
  checkUrl u (net u)

/-- Model of `process_batch`: one task per URL of the batch;
`asyncio.gather` returns the results in task order. -/
def processBatch (net : String → NetBehavior) (urls : List String) :
    List ProbeResult :=
  urls.map (checkUrlF net)

/-- Structural helper for the slicing loop: cut off chunks of 1000
while fuel lasts (one unit of fuel per chunk suffices because every
chunk consumes at least one element). -/
def chunksAux {α : Type} : Nat → List α → List (List α)
  | _, [] => []
  | 0, _ :: _ => []
  | fuel + 1, a :: t => ((a :: t).take 1000) :: chunksAux fuel ((a :: t).drop 1000)

/-- Model of the slicing loop `for i in range(0, len(urls), batch_size)`
with `batch_size = 1000`: the list cut into consecutive chunks of at
most 1000 elements (the fuel `l.length` is enough for every chunk, see
`chunks1000_flatten`). -/
def chunks1000 {α : Type} (l : List α) : List (List α) :=
  chunksAux l.length l

/-- Model of `process_urls`: probe every batch in order, concatenate the
batch results (`all_results.extend(batch_results)`), then fold every
result into the state. -/
def runOutcomes (net : String → NetBehavior) (urls : List String) :
    List ProbeResult :=
  ((chunks1000 urls).map (processBatch net)).flatten

/-- The final state of a run: every collected result folded, in order,
into the empty state. -/
def processUrls (inc : Option String) (net : String → NetBehavior)
    (urls : List String) : RState :=
  (runOutcomes net urls).foldl (foldOutcome inc) initRState

/-- Whether a result is counted as valid by the aggregation loop: its
`error` is falsy and its status is a member of the included codes. -/
def countsValid (inc : Option String) (r : ProbeResult) : Bool :=
  !isErrorResult r && validStatus inc r

/-- Whether a result is a Success that the aggregation loop silently
skips: its `error` is falsy but its status is not included. -/
def countsSkipped (inc : Option String) (r : ProbeResult) : Bool :=
  !isErrorResult r && !validStatus inc r

/-- Concrete network behaviour: a clean response with the given status
and Content-Length header on every call. -/
def respNet (st : Nat) (cl : Option String) : NetBehavior :=
  ⟨.resp ⟨st, cl⟩, .resp ⟨st, cl⟩, .resp ⟨st, cl⟩⟩

/-- Concrete network behaviour: every call raises the given exception. -/
def exnNet (e : PyExn) : NetBehavior :=
  ⟨.exn e, .exn e, .exn e⟩

/-- The end-to-end scenario of the specification: URL `A` answers
200 with Content-Length 120, `B` answers 404, `C` times out, and every
other URL (`D`) answers 301 with no Content-Length. -/
def cexNet : String → NetBehavior := fun u =>
  if u = "A" then respNet 200 (some "120")
  else if u = "B" then respNet 404 none
  else if u = "C" then exnNet .timeoutError
  else respNet 301 none

/-- With enough fuel, concatenating the chunks gives back the list. -/
theorem chunksAux_flatten {α : Type} (fuel : Nat) (l : List α)
    (h : l.length ≤ fuel) : (chunksAux fuel l).flatten = l := by
  induction fuel generalizing l with
  | zero =>
      cases l with
      | nil => rfl
      | cons a t => simp at h
  | succ fuel ih =>
      cases l with
      | nil => rfl
      | cons a t =>
          rw [chunksAux, List.flatten_cons, ih]
          · exact List.take_append_drop 1000 (a :: t)
          · simp at h ⊢
            omega

/-- Concatenating the 1000-sized chunks gives back the original list. -/
theorem chunks1000_flatten {α : Type} (l : List α) :
    (chunks1000 l).flatten = l :=
  chunksAux_flatten l.length l (Nat.le_refl _)

/-- The collected outcomes of a run are the probe results of the input
URLs, in input order: batching is invisible in the concatenation. -/
theorem runOutcomes_eq (net : String → NetBehavior) (urls : List String) :
    runOutcomes net urls = urls.map (checkUrlF net) := by
  unfold runOutcomes processBatch
  rw [← List.map_flatten, chunks1000_flatten]

/-- The probe preserves the URL identity in its result. -/
theorem checkUrl_url (url : String) (b : NetBehavior) :
    (checkUrl url b).url = url := by
  unfold checkUrl
  split <;> rfl

/-- Each fold step increments `total` by exactly one. -/
theorem foldOutcome_total (inc : Option String) (s : RState) (r : ProbeResult) :
    (foldOutcome inc s r).total = s.total + 1 := by
  unfold foldOutcome
  split
  · rfl
  · split <;> rfl

/-- Each fold step increments `errs` exactly when the result is an
error. -/
theorem foldOutcome_errs (inc : Option String) (s : RState) (r : ProbeResult) :
    (foldOutcome inc s r).errs = s.errs + (if isErrorResult r then 1 else 0) := by
  unfold foldOutcome
  split
  · simp_all
  · split <;> simp_all

/-- Each fold step increments `valid` exactly when the result counts as
valid. -/
theorem foldOutcome_valid (inc : Option String) (s : RState) (r : ProbeResult) :
    (foldOutcome inc s r).valid = s.valid + (if countsValid inc r then 1 else 0) := by
  unfold foldOutcome countsValid
  split
  · simp_all
  · split <;> simp_all

/-- Folding a list of results adds its length to `total`. -/
theorem foldl_total (inc : Option String) (rs : List ProbeResult) (s : RState) :
    (rs.foldl (foldOutcome inc) s).total = s.total + rs.length := by
  induction rs generalizing s with
  | nil => simp
  | cons r rs ih =>
      rw [List.foldl_cons, ih, foldOutcome_total]
      simp; omega

/-- Folding a list of results adds its error count to `errs`. -/
theorem foldl_errs (inc : Option String) (rs : List ProbeResult) (s : RState) :
    (rs.foldl (foldOutcome inc) s).errs
      = s.errs + (rs.filter isErrorResult).length := by
  induction rs generalizing s with
  | nil => simp
  | cons r rs ih =>
      rw [List.foldl_cons, ih, foldOutcome_errs]
      by_cases h : isErrorResult r
      · simp [h]
        omega
      · simp [h]

/-- Folding a list of results adds its valid count to `valid`. -/
theorem foldl_valid (inc : Option String) (rs : List ProbeResult) (s : RState) :
    (rs.foldl (foldOutcome inc) s).valid
      = s.valid + (rs.filter (countsValid inc)).length := by
  induction rs generalizing s with
  | nil => simp
  | cons r rs ih =>
      rw [List.foldl_cons, ih, foldOutcome_valid]
      by_cases h : countsValid inc r
      · simp [h]
        omega
      · simp [h]

/-- A list splits by length into errors, valid results and skipped
results. -/
theorem length_split3 (inc : Option String) (rs : List ProbeResult) :
    rs.length = (rs.filter isErrorResult).length
      + (rs.filter (countsValid inc)).length
      + (rs.filter (countsSkipped inc)).length := by
  induction rs with
  | nil => rfl
  | cons r rs ih =>
      by_cases hp : isErrorResult r <;> by_cases hq : validStatus inc r <;>
        simp [List.filter, countsValid, countsSkipped, hp, hq] <;> omega

/-- C4: for every URL and network behaviour, `check_url` returns a
`ProbeResult` and never lets an exception escape past its boundary: the
exception-propagating semantics always ends in `.ok`, with the same
result `check_url` returns, because every exception a network call or
the body can raise is caught by one of the three outer handlers and
turned into a `Failure` result. -/
theorem C4_probe_no_escape (url : String) (b : NetBehavior) :
    checkUrlE url b = .ok (checkUrl url b) := by
  unfold checkUrlE checkUrl
  cases h : settle b with
  | ok v => rfl
  | error e =>
      cases e <;>
        simp [catchesTimeout, catchesConnector, catchesException, exnStr]

/-- C5: when the HEAD request returns a clean response with status 405
or 501, the probe issues the fallback GET and, when that GET returns a
clean response whose Content-Length parses cleanly, the outcome is a
Success carrying the GET response's status and Content-Length-derived
size. -/
theorem C5_head_get_fallback (url : String) (b : NetBehavior)
    (hr gr : HttpResponse) (sz : Option Int)
    (hh : b.head = .resp hr) (h45 : hr.status = 405 ∨ hr.status = 501)
    (hg : b.get1 = .resp gr)
    (hsz : sizeOfHeader gr.contentLength = .ok sz) :
    checkUrl url b = successResult url gr.status (sz.getD 0) := by
  have hb : tryBody b = (getPhase b.get1, 1) := by
    unfold tryBody
    rw [hh]
    simp [h45]
  have hg1 : getPhase b.get1 = .ok (gr.status, sz) := by
    simp [getPhase, hg, hsz, Except.map]
  have hs : settle b = .ok (gr.status, sz) := by
    simp [settle, hb, hg1]
  unfold checkUrl
  rw [hs]

/-- C5 witness: a URL returning 405 on HEAD and 200 (Content-Length
120) on GET yields a Success with status 200 and size 120. -/
theorem C5_head_get_fallback_witness :
    checkUrl "u" ⟨.resp ⟨405, none⟩, .resp ⟨200, some "120"⟩, .resp ⟨500, none⟩⟩
      = successResult "u" 200 120 :=
  C5_head_get_fallback "u" _ ⟨405, none⟩ ⟨200, some "120"⟩ (some 120)
    rfl (Or.inl rfl) rfl (by rfl)

/-- C6: probe failures are classified in handler priority order: a
timeout of the overall operation yields the `Timeout` failure, a
connection-establishment failure yields the `DNS/Connection` failure,
and any other escaping exception yields the generic `Error` failure; in
particular a HEAD that times out with no response yields the `Timeout`
failure, never the generic one. -/
theorem C6_error_classification (url : String) (b : NetBehavior) (e : PyExn)
    (h : settle b = .error e) :
    (e = .timeoutError → checkUrl url b = failureResult url "Timeout")
  ∧ (∀ m, e = .connectorError m →
      checkUrl url b = failureResult url ("DNS/Connection: " ++ m.take 100))
  ∧ (e ≠ .timeoutError → (∀ m, e ≠ .connectorError m) →
      checkUrl url b = failureResult url ("Error: " ++ (exnStr e).take 100))
  ∧ (b.head = .exn .timeoutError →
      checkUrl url b = failureResult url "Timeout") := by
  refine ⟨?_, ?_, ?_, ?_⟩
  · rintro rfl
    unfold checkUrl
    rw [h]
  · rintro m rfl
    unfold checkUrl
    rw [h]
  · intro hne hnc
    unfold checkUrl
    rw [h]
    cases e with
    | timeoutError => exact absurd rfl hne
    | connectorError m => exact absurd rfl (hnc m)
    | _ => rfl
  · intro hh
    have hs : settle b = .error .timeoutError := by
      unfold settle tryBody
      rw [hh]
      rfl
    unfold checkUrl
    rw [hs]

/-- C6 witness: with every network call timing out, the probe returns
the `Timeout` failure (and not the generic `Error` failure). -/
theorem C6_error_classification_witness :
    checkUrl "u" (exnNet .timeoutError) = failureResult "u" "Timeout" :=
  (C6_error_classification "u" (exnNet .timeoutError) .timeoutError rfl).1 rfl

/-- The detail string the outer handlers of `check_url` store for each
escaping exception. -/
def detailOf : PyExn → String
  | .timeoutError => "Timeout"
  | .connectorError m => "DNS/Connection: " ++ m.take 100
  | e => "Error: " ++ (exnStr e).take 100

/-- C7 counterexample: the claim says the `detail` field is the
stringified underlying error truncated to at most 100 characters; for
an unexpected exception whose `str()` is `boom` the code stores
`Error: boom`, which differs from the truncated stringified error
`boom` (the code prepends a classification tag). -/
theorem C7_counterexample :
    (checkUrl "u" (exnNet (.otherError "boom"))).error = some "Error: boom"
  ∧ ("Error: boom" : String) ≠ (exnStr (.otherError "boom")).take 100 := by
  constructor
  · decide
  · decide

/-- C7 amended: the `detail` field embeds the stringified underlying
error truncated to at most 100 characters after a fixed classification
tag: `DNS/Connection: ` for connection failures and `Error: ` for other
exceptions; for timeouts the detail is the constant string `Timeout`
(no stringified error at all). -/
theorem C7_detail_format (url : String) (b : NetBehavior) (e : PyExn)
    (h : settle b = .error e) :
    (checkUrl url b).error = some (detailOf e) := by
  unfold checkUrl
  rw [h]
  cases e <;> rfl

/-- C7 witness: a connection failure whose `str()` is `no route` is stored as
`DNS/Connection: no route`. -/
theorem C7_detail_format_witness :
    (checkUrl "u" (exnNet (.connectorError "no route"))).error
      = some (detailOf (.connectorError "no route")) :=
  C7_detail_format "u" (exnNet (.connectorError "no route"))
    (.connectorError "no route") rfl

/-- C10: the implementation returns outcomes in exactly the input
order: the collected outcome list is the input list mapped through the
probe, the i-th collected outcome is the probe result of the i-th input
URL, and projecting the URL out of each outcome returns the input list
itself. -/
theorem C10_input_order (net : String → NetBehavior) (urls : List String) :
    runOutcomes net urls = urls.map (checkUrlF net)
  ∧ (∀ i : Nat, (runOutcomes net urls)[i]? = (urls[i]?).map (checkUrlF net))
  ∧ (runOutcomes net urls).map ProbeResult.url = urls := by
  refine ⟨runOutcomes_eq net urls, ?_, ?_⟩
  · intro i
    rw [runOutcomes_eq, List.getElem?_map]
  · rw [runOutcomes_eq, List.map_map]
    have : (ProbeResult.url ∘ checkUrlF net) = id := by
      funext u
      exact checkUrl_url u (net u)
    rw [this, List.map_id]

/-- C1: the aggregation loop treats every folded probe outcome by its
variant: a Failure (truthy `error`) is appended to the failure sequence
and increments the errored counter; a Success whose status is in the
accepted set increments the valid counter and appends its URL to the
bucket `results[status][size]`; a Success whose status is not accepted
increments the total counter only, landing in neither the valid buckets
nor the failure sequence. -/
theorem C1_fold_contract (inc : Option String) (s : RState) (r : ProbeResult) :
    (∀ d, r.error = some d → d ≠ "" →
      foldOutcome inc s r =
        { s with total := s.total + 1, errs := s.errs + 1,
                 errors := s.errors ++ [r] })
  ∧ (∀ st, r.error = none → r.status = some st → isIncluded inc st = true →
      foldOutcome inc s r =
        { s with total := s.total + 1, valid := s.valid + 1,
                 results := bucketAdd s.results st (r.size.getD 0) r.url })
  ∧ (∀ st, r.error = none → r.status = some st → isIncluded inc st = false →
      foldOutcome inc s r = { s with total := s.total + 1 }) := by
  refine ⟨?_, ?_, ?_⟩
  · intro d herr hne
    have hde : d.isEmpty = false :=
      Bool.eq_false_iff.mpr (fun h => hne ((String.isEmpty_iff d).mp h))
    have he : isErrorResult r = true := by
      simp [isErrorResult, herr, hde]
    simp [foldOutcome, he]
  · intro st herr hst hinc
    have he : isErrorResult r = false := by
      simp [isErrorResult, herr]
    have hv : validStatus inc r = true := by
      simp [validStatus, hst, hinc]
    simp [foldOutcome, he, hv, hst]
  · intro st herr hst hinc
    have he : isErrorResult r = false := by
      simp [isErrorResult, herr]
    have hv : validStatus inc r = false := by
      simp [validStatus, hst, hinc]
    simp [foldOutcome, he, hv]

/-- C1 witness: the three fold branches at concrete outcomes, and the
end-to-end scenario `[A 200/120, B 404, C timeout, D 301/0]` with the
default accepted codes giving `valid = 2`, `errored = 1`, `total = 4`. -/
theorem C1_fold_contract_witness :
    (foldOutcome none initRState (failureResult "C" "Timeout")
       = { initRState with total := 1, errs := 1,
                           errors := [failureResult "C" "Timeout"] })
  ∧ (foldOutcome none initRState (successResult "A" 200 120)
       = { initRState with total := 1, valid := 1,
                           results := bucketAdd [] 200 120 "A" })
  ∧ (foldOutcome none initRState (successResult "B" 404 0)
       = { initRState with total := 1 })
  ∧ (processUrls none cexNet ["A", "B", "C", "D"]).valid = 2
  ∧ (processUrls none cexNet ["A", "B", "C", "D"]).errs = 1
  ∧ (processUrls none cexNet ["A", "B", "C", "D"]).total = 4 :=
  ⟨(C1_fold_contract none initRState (failureResult "C" "Timeout")).1
      "Timeout" rfl (by decide),
   (C1_fold_contract none initRState (successResult "A" 200 120)).2.1
      200 rfl rfl (by decide),
   (C1_fold_contract none initRState (successResult "B" 404 0)).2.2
      404 rfl rfl (by decide),
   by decide, by decide, by decide⟩

/-- C2: a completed run collects exactly one outcome per input URL, and
afterwards `total` equals `valid` plus `errored` plus the number of
Success outcomes whose status is not in the accepted set. -/
theorem C2_outcome_count (inc : Option String) (net : String → NetBehavior)
    (urls : List String) :
    (runOutcomes net urls).length = urls.length
  ∧ (processUrls inc net urls).total
      = (processUrls inc net urls).valid + (processUrls inc net urls).errs
        + ((runOutcomes net urls).filter (countsSkipped inc)).length := by
  refine ⟨by rw [runOutcomes_eq, List.length_map], ?_⟩
  unfold processUrls
  rw [foldl_total, foldl_valid, foldl_errs]
  have h3 := length_split3 inc (runOutcomes net urls)
  simp [initRState]
  omega

/-- C3 counterexample: on the scenario `[A 200/120, B 404, C timeout,
D 301/0]` the run ends with `total = 4` but `valid + errored = 3`: the
claimed invariant `total = valid + errored` fails because the
non-accepted Success for `B` is counted in `total` only. -/
theorem C3_counterexample :
    ¬ ((processUrls none cexNet ["A", "B", "C", "D"]).total
        = (processUrls none cexNet ["A", "B", "C", "D"]).valid
          + (processUrls none cexNet ["A", "B", "C", "D"]).errs) := by
  decide

/-- C3 amended: after a completed run `total` equals the number of URLs
dispatched, and `valid + errored + (number of Success outcomes with
non-accepted status)` equals the number of URLs dispatched; `total =
valid + errored` holds only when no Success carries a non-accepted
status. -/
theorem C3_amended_invariant (inc : Option String)
    (net : String → NetBehavior) (urls : List String) :
    (processUrls inc net urls).total = urls.length
  ∧ (processUrls inc net urls).valid + (processUrls inc net urls).errs
      + ((runOutcomes net urls).filter (countsSkipped inc)).length
      = urls.length := by
  have hlen : (runOutcomes net urls).length = urls.length := by
    rw [runOutcomes_eq, List.length_map]
  have h3 := length_split3 inc (runOutcomes net urls)
  unfold processUrls
  rw [foldl_total, foldl_valid, foldl_errs]
  simp [initRState]
  omega

/-- C8 counterexample: a response with status 200 and the unparseable
Content-Length header `abc` does not yield a Success with size 0 as the
claim requires: `int('abc')` raises `ValueError`, which the catch-all
turns into a Failure outcome. -/
theorem C8_counterexample :
    (checkUrl "u" (respNet 200 (some "abc"))).error
      = some ("Error: " ++ (intErrMsg "abc").take 100)
  ∧ checkUrl "u" (respNet 200 (some "abc")) ≠ successResult "u" 200 0 := by
  constructor
  · decide
  · decide

/-- C8 amended: for the clean HEAD response the probe settles on (status
neither 405 nor 501): an absent or empty Content-Length header gives
`sizeBytes = 0`; a nonempty header that parses as an integer gives that
integer; a nonempty header that does not parse makes `int()` raise
`ValueError`, so the probe returns a Failure (`Error: ` detail) rather
than a Success with size 0. -/
theorem C8_size_of_header (url : String) (b : NetBehavior) (st : Nat)
    (cl : Option String) (hh : b.head = .resp ⟨st, cl⟩)
    (h45 : ¬ (st = 405 ∨ st = 501)) :
    (cl = none → checkUrl url b = successResult url st 0)
  ∧ (∀ s, cl = some s → s.isEmpty = true →
      checkUrl url b = successResult url st 0)
  ∧ (∀ s n, cl = some s → s.isEmpty = false → pyInt s = some n →
      checkUrl url b = successResult url st n)
  ∧ (∀ s, cl = some s → s.isEmpty = false → pyInt s = none →
      checkUrl url b = failureResult url ("Error: " ++ (intErrMsg s).take 100)) := by
  have htb : tryBody b = ((sizeOfHeader cl).map (fun sz => (st, sz)), 0) := by
    simp [tryBody, hh, h45]
  refine ⟨?_, ?_, ?_, ?_⟩
  · rintro rfl
    have hs : settle b = .ok (st, none) := by
      simp [settle, htb, sizeOfHeader, Except.map]
    simp [checkUrl, hs, successResult]
  · rintro s rfl hemp
    have hs : settle b = .ok (st, none) := by
      simp [settle, htb, sizeOfHeader, hemp, Except.map]
    simp [checkUrl, hs, successResult]
  · rintro s n rfl hemp hpy
    have hs : settle b = .ok (st, some n) := by
      simp [settle, htb, sizeOfHeader, hemp, hpy, Except.map]
    simp [checkUrl, hs, successResult]
  · rintro s rfl hemp hpy
    have hs : settle b = .error (.valueError (intErrMsg s)) := by
      simp [settle, htb, sizeOfHeader, hemp, hpy, Except.map, isClientErr]
    simp [checkUrl, hs, failureResult, exnStr]

/-- C8 witness: status 200 with Content-Length `120` yields a Success
of size 120. -/
theorem C8_size_of_header_witness :
    checkUrl "u" (respNet 200 (some "120")) = successResult "u" 200 120 :=
  (C8_size_of_header "u" (respNet 200 (some "120")) 200 (some "120")
      rfl (by decide)).2.2.1 "120" 120 rfl rfl (by decide)

end UrlChecker
